import Mathlib

/-!
Shallow embedding of the dokanalyse analysis pipeline
(Arkitektum/dok.arealanalyse.process).

The embedding follows the Python sources:
  * `src/dokanalyse/services/quality/coverage_quality.py`
  * `src/dokanalyse/models/analysis.py`
  * `src/dokanalyse/models/ogc_api_analysis.py`

External collaborators (dataset query capability, coverage-value source,
codelist lookup, catalog metadata lookup, guidance lookup, raster and
cartography helpers, dataset/object quality services) are modelled as an
injected environment (`Collaborators`), exactly as the spec's §6 describes
them.  The opaque planar-geometry capability (osgeo/ogr) is modelled as a
type `G` together with an operations record (`GeomOps`); the spec's §1
declares those operations out of scope and assumed correct.

Python floats are modelled as exact rationals.  Where a float's printed
form matters (the coverage percentage), the value is carried together with
its Python string representation (`PyFloat`), since binary floating-point
printing itself is out of scope.  Python `round` ties (banker's rounding)
are not exercised by any claim; rounding is modelled with the exact
nearest-integer rounding on rationals.
-/

/-- Geometry type tags, mirroring the `ogr.wkbPolygon` / `ogr.wkbMultiPolygon`
constants the code compares against (`analysis.py`, `__set_geometry_areas`). -/
inductive GeomType where
  | wkbPolygon
  | wkbMultiPolygon
  | wkbLineString
  | wkbPoint
  | wkbOther
deriving DecidableEq, Repr, Inhabited

/-- Modelled from the spec: `ResultStatus` is the closed enumeration declared in
`models/result_status.py` (not under the provided sources); the spec's §3 lists
its members. -/
inductive ResultStatus where
  | NO_HIT_GREEN
  | NO_HIT_YELLOW
  | HIT_GREEN
  | HIT_YELLOW
  | HIT_RED
  | TIMEOUT
  | ERROR
deriving DecidableEq, Repr, Inhabited

/-- Modelled from the spec: the exception type raised on fatal configuration
errors (`models/exceptions.py`, not under the provided sources); it carries a
message. -/
structure DokAnalysisException where
  message : String
deriving DecidableEq, Repr

/-- Modelled from the spec: indicator kind tag (`models/config/quality_indicator_type.py`,
not under the provided sources).  The spec's §3 says kind is COVERAGE or other. -/
inductive QualityIndicatorType where
  | COVERAGE
  | OTHER
deriving DecidableEq, Repr, Inhabited

/-- Modelled from the spec: quality-indicator configuration entity
(`models/config/quality_indicator.py`, not under the provided sources).  Fields
are the ones the provided sources read: `type`, `quality_dimension_id`,
`quality_dimension_name`, `quality_warning_text`, the configured threshold
values, and whether a WFS coverage source is configured (`wfs is not None`);
the WFS connection details themselves are opaque. -/
structure QualityIndicator where
  type : QualityIndicatorType
  quality_dimension_id : String
  quality_dimension_name : String
  quality_warning_text : String
  threshold_values : List String
  has_wfs : Bool
deriving DecidableEq, Repr, Inhabited

/-- Modelled from the spec: a quality measurement record
(`models/quality_measurement.py`, not under the provided sources): dimension
id, dimension name, value, optional comment (spec §3). -/
structure QualityMeasurement where
  quality_dimension_id : String
  quality_dimension_name : String
  value : String
  comment : Option String
deriving DecidableEq, Repr, Inhabited

/-- One entry of a codelist, as read by `_get_label_from_codelist`
(`coverage_quality.py`): a value and an optional label. -/
structure CodelistEntry where
  value : String
  label : Option String
deriving DecidableEq, Repr, Inhabited

/-- A Python float carried as its exact rational value together with its
Python string representation (`str(x)`).  Binary floating-point printing is
out of scope; the pair keeps the embedding executable. -/
structure PyFloat where
  val : ℚ
  repr : String
deriving DecidableEq, Repr

/-- Python float literal `0`. -/
def PyFloat.zero : PyFloat := ⟨0, "0"⟩

/-- One link of a geolett guidance record (`analysis.py`,
`__set_guidance_data`). -/
structure GeolettLink where
  href : String
  tittel : String
deriving DecidableEq, Repr, Inhabited

/-- A geolett guidance record with the fields `analysis.py` reads:
`tittel`, `forklarendeTekst`, `dialogtekst`, `lenker`, `muligeTiltak`. -/
structure Geolett where
  tittel : String
  forklarendeTekst : String
  dialogtekst : String
  lenker : List GeolettLink
  muligeTiltak : String
deriving DecidableEq, Repr, Inhabited

/-- Modelled from the spec: catalog metadata (`models/metadata.py`, not under
the provided sources), used only as an opaque record attached to the result. -/
structure Metadata where
  datasetTitle : String
deriving DecidableEq, Repr, Inhabited

/-- One configured layer of a dataset (`models/config/dataset_config.py`, not
under the provided sources); fields are the ones `ogc_api_analysis.py` reads. -/
structure LayerConfig where
  ogc_api : String
  geolett_id : Option String
  wms : Option String
  result_status : ResultStatus
deriving DecidableEq, Repr, Inhabited

/-- Dataset configuration (`models/config/dataset_config.py`, not under the
provided sources); fields are the ones the provided sources read. -/
structure DatasetConfig where
  title : Option String
  themes : List String
  layers : List LayerConfig
  properties : List String
  wms : Option String
deriving DecidableEq, Repr, Inhabited

/-- The opaque planar-geometry capability (osgeo/ogr operations used by the
sources).  The spec's §1 delegates these operations and assumes them correct;
`G` is the opaque geometry value type. -/
structure GeomOps (G : Type) where
  Clone : G → G
  GetArea : G → ℚ
  GetGeometryType : G → GeomType
  Intersection : G → G → Option G
  Distance : G → G → ℚ
  create_buffered_geometry : G → ℤ → G
  create_run_on_input_geometry_json : G → String

/-- A feature of a parsed OGC API response: a property bag (a dict, modelled
as path-keyed optional values as consumed by the pydash `get` lookup) and an
optional geometry (the GeoJSON parse/transform helpers live outside the
provided sources, so the feature carries the resulting geometry directly). -/
structure OgcFeature (G : Type) where
  properties : List (String × Option String)
  geometry : Option G
deriving DecidableEq, Repr

/-- A parsed OGC API response: a list of features
(`ogc_api_analysis.py`, `__parse_response` / `_set_distance_to_object`). -/
structure OgcApiResponse (G : Type) where
  features : List (OgcFeature G)
deriving DecidableEq, Repr

/-- The external collaborators of one analysis run (spec §6).  Calls whose
arguments are fixed for the whole run (the coverage-value fetch, the codelist,
catalog metadata, dataset/object quality) are modelled as their results;
calls made with varying arguments stay functions. -/
structure Collaborators (G : Type) where
  query_ogc_api : LayerConfig → G → ℤ × Option (OgcApiResponse G)
  get_geolett_data : Option String → Option Geolett
  get_raster_result : Option String → Option String → Option String
  get_cartography_url : Option String → Option String → Option String
  get_kartkatalog_metadata : Option Metadata
  get_values_from_wfs : List String × PyFloat
  get_codelist : Option (List CodelistEntry)
  get_dataset_quality : List QualityMeasurement × List String
  get_object_quality : List QualityMeasurement × List String

/-- The mutable state of one `Analysis` instance: the fields assigned in
`Analysis.__init__` (`analysis.py`), with the Python `None` initializations
modelled as `Option` defaults. -/
structure AnalysisState (G : Type) where
  geometry : G
  run_on_input_geometry : Option G := none
  geometries : List (Option G) := []
  geolett : Option Geolett := none
  title : Option String := none
  description : Option String := none
  guidance_text : Option String := none
  guidance_uri : List GeolettLink := []
  possible_actions : List String := []
  quality_measurement : List QualityMeasurement := []
  quality_warning : List String := []
  buffer : ℤ := 0
  input_geometry_area : Option ℚ := none
  run_on_input_geometry_json : Option String := none
  hit_area : Option ℚ := none
  distance_to_object : ℤ := 0
  raster_result : Option String := none
  cartography : Option String := none
  data : List (List (String × Option String)) := []
  themes : Option (List String) := none
  run_on_dataset : Option Metadata := none
  run_algorithm : List String := []
  result_status : ResultStatus := .NO_HIT_GREEN
  coverage_statuses : List String := []
  has_coverage : Bool := true
deriving DecidableEq, Repr

/-- Python `round(x, 2)` on the exact rational value: two-decimal rounding
applied where the sources call `round(..., 2)`. -/
def round2 (q : ℚ) : ℚ := (round (q * 100) : ℤ) / 100

/-- The working geometry of a state: reads `self.run_on_input_geometry`;
`run`'s first stage always sets it, and the default keeps the embedding total
where Python would raise on `None`. -/
def working {G : Type} (s : AnalysisState G) : G :=
  s.run_on_input_geometry.getD s.geometry

/-- Modelled from the spec: `get_threshold_values`
(`services/quality/__init__.py`, not under the provided sources) returns the
indicator's configured threshold-value list (spec §4.2: "the indicator's
configured threshold-value list"). -/
def get_threshold_values (quality_indicator : QualityIndicator) : List String :=
  quality_indicator.threshold_values

/-- Embeds `_get_values_from_web_service` (`coverage_quality.py`): delegate to
the WFS coverage-value source when one is configured, else `([], 0)`. -/
def _get_values_from_web_service (quality_indicator : QualityIndicator)
    (wfs_result : List String × PyFloat) : List String × PyFloat :=
  if quality_indicator.has_wfs then wfs_result else ([], PyFloat.zero)

/-- Embeds `_get_label_from_codelist` (`coverage_quality.py`). -/
def _get_label_from_codelist (value : String) (codelist : Option (List CodelistEntry)) :
    Option String :=
  match codelist with
  | none => none
  | some entries =>
    if entries.length = 0 then none
    else
      match entries.find? (fun entry => entry.value == value) with
      | some result => result.label
      | none => none

/-- Embeds `_get_warning_text` (`coverage_quality.py`).  The Python `any`
calls test the truthiness of the yielded strings, so an empty string never
satisfies them; the `!= ""` conjuncts capture that. -/
def _get_warning_text (quality_indicator : QualityIndicator) (values : List String)
    (hit_area_percent : PyFloat) : Option String :=
  let threshold_values := get_threshold_values quality_indicator
  let should_warn := values.any (fun value =>
    (threshold_values.any (fun t_value => t_value == value && t_value != "")) && value != "")
  if should_warn then
    if 0 < hit_area_percent.val ∧ hit_area_percent.val < 100 then
      let hit_area := hit_area_percent.repr.replace "." ","
      some (hit_area ++ " % av " ++ quality_indicator.quality_warning_text.toLower)
    else
      some quality_indicator.quality_warning_text
  else
    none

/-- Embeds `_has_coverage` (`coverage_quality.py`). -/
def _has_coverage (values : List String) : Bool :=
  if "ikkeKartlagt" ∈ values then
    values.any (fun value => value != "ikkeKartlagt")
  else
    true

/-- One entry of the `values` list built by `_get_coverage_quality_data`. -/
structure CoverageMeasValue where
  value : String
  comment : Option String
deriving DecidableEq, Repr

/-- The measurement dict built by `_get_coverage_quality_data`. -/
structure CoverageMeasurement where
  id : String
  name : String
  values : List CoverageMeasValue
  warning_text : Option String
deriving DecidableEq, Repr

/-- Embeds `_get_coverage_quality_data` (`coverage_quality.py`). -/
def _get_coverage_quality_data {G : Type} (col : Collaborators G)
    (quality_indicator : QualityIndicator) : Option CoverageMeasurement × Bool :=
  let fetched := _get_values_from_web_service quality_indicator col.get_values_from_wfs
  let values := fetched.1
  let hit_area_percent := fetched.2
  if values.length = 0 then
    (none, false)
  else
    let codelist := col.get_codelist
    let meas_values := values.map (fun value =>
      { value := if value = "ikkeKartlagt" ∨ value = "ikkeRelevant" then "Nei" else "Ja"
        comment := _get_label_from_codelist value codelist : CoverageMeasValue })
    let measurement : CoverageMeasurement :=
      { id := quality_indicator.quality_dimension_id
        name := quality_indicator.quality_dimension_name
        values := meas_values
        warning_text := _get_warning_text quality_indicator values hit_area_percent }
    (some measurement, _has_coverage values)

/-- Embeds `get_coverage_quality` (`coverage_quality.py`). -/
def get_coverage_quality {G : Type} (col : Collaborators G)
    (quality_indicator : QualityIndicator) :
    List QualityMeasurement × Option String × Bool :=
  match _get_coverage_quality_data col quality_indicator with
  | (none, _) => ([], none, false)
  | (some quality_data, has_coverage) =>
    let measurements := quality_data.values.map (fun value =>
      { quality_dimension_id := quality_data.id
        quality_dimension_name := quality_data.name
        value := value.value
        comment := value.comment : QualityMeasurement })
    (measurements, quality_data.warning_text, has_coverage)

/-- Embeds `_QMS_SORT_ORDER` (`analysis.py`): the fixed display order of
quality-dimension ids. -/
def _QMS_SORT_ORDER : List String :=
  ["fullstendighet_dekning",
   "stedfestingsnøyaktighet",
   "egnethet_reguleringsplan",
   "egnethet_kommuneplan",
   "egnethet_byggesak"]

/-- Embeds `Analysis.add_run_algorithm` (`analysis.py`). -/
def add_run_algorithm {G : Type} (algorithm : String) (s : AnalysisState G) :
    AnalysisState G :=
  { s with run_algorithm := s.run_algorithm ++ [algorithm] }

/-- Embeds `Analysis.set_default_data` (`analysis.py`): title (geolett title
when guidance data exists, else the configured title), themes, catalog
metadata. -/
def set_default_data {G : Type} (col : Collaborators G) (config : DatasetConfig)
    (s : AnalysisState G) : AnalysisState G :=
  { s with
    title := match s.geolett with
             | some geolett => some geolett.tittel
             | none => config.title
    themes := some config.themes
    run_on_dataset := col.get_kartkatalog_metadata }

/-- Embeds `Analysis.__set_input_geometry` (`analysis.py`): record the step
label, then either buffer the input geometry or clone it as the working
geometry. -/
def __set_input_geometry {G : Type} (ops : GeomOps G) (s : AnalysisState G) :
    AnalysisState G :=
  let s := add_run_algorithm "set input_geometry" s
  if s.buffer > 0 then
    let buffered_geom := ops.create_buffered_geometry s.geometry s.buffer
    let s := add_run_algorithm "add buffer" s
    { s with run_on_input_geometry := some buffered_geom }
  else
    { s with run_on_input_geometry := some (ops.Clone s.geometry) }

/-- Embeds `Analysis.__run_coverage_analysis` (`analysis.py`).  Note that the
source passes `quality_indicators[0]` — the first quality indicator overall —
to `get_coverage_quality`, not the filtered coverage indicator; the embedding
preserves that (`quality_indicators.headI`). -/
def __run_coverage_analysis {G : Type} (col : Collaborators G)
    (quality_indicators : List QualityIndicator) (s : AnalysisState G) :
    Except DokAnalysisException (AnalysisState G) :=
  if quality_indicators.length = 0 then
    .ok s
  else
    let coverage_indicators := quality_indicators.filter
      (fun indicator => indicator.type = QualityIndicatorType.COVERAGE)
    if coverage_indicators.length = 0 then
      .ok s
    else if coverage_indicators.length > 1 then
      .error ⟨"A dataset can only have one coverage quality indicator"⟩
    else
      let s := add_run_algorithm "check coverage" s
      let result := get_coverage_quality col quality_indicators.headI
      let measurements := result.1
      let warning := result.2.1
      let has_coverage := result.2.2
      let s := { s with
        quality_measurement := s.quality_measurement ++ measurements
        has_coverage := has_coverage }
      .ok (match warning with
           | some w => { s with quality_warning := s.quality_warning ++ [w] }
           | none => s)

/-- Embeds `Analysis.__set_geometry_areas` (`analysis.py`): set the rounded
input-geometry area; when there are result geometries, accumulate the areas of
polygonal intersections and round the sum once. -/
def __set_geometry_areas {G : Type} (ops : GeomOps G) (s : AnalysisState G) :
    AnalysisState G :=
  let s := { s with input_geometry_area := some (round2 (ops.GetArea (working s))) }
  if s.geometries.length = 0 then
    s
  else
    let hit_area : ℚ := (s.geometries.map (fun geometry =>
      match geometry with
      | none => 0
      | some geometry =>
        match ops.Intersection (working s) geometry with
        | none => 0
        | some intersection =>
          let geom_type := ops.GetGeometryType intersection
          if geom_type = GeomType.wkbPolygon ∨ geom_type = GeomType.wkbMultiPolygon then
            ops.GetArea intersection
          else 0)).sum
    { s with hit_area := some (round2 hit_area) }

/-- Embeds `Analysis.__set_guidance_data` (`analysis.py`); the caller guards
on `self.geolett is not None`. -/
def __set_guidance_data {G : Type} (s : AnalysisState G) : AnalysisState G :=
  match s.geolett with
  | none => s
  | some geolett =>
    let s :=
      if s.result_status ≠ ResultStatus.NO_HIT_GREEN then
        { s with
          description := some geolett.forklarendeTekst
          guidance_text := some geolett.dialogtekst }
      else s
    let s := { s with guidance_uri := s.guidance_uri ++ geolett.lenker }
    { s with possible_actions := s.possible_actions ++
        ((geolett.muligeTiltak.splitOn "\n").map (fun line =>
          line.dropWhile (fun c => c = '-' ∨ c = ' '))) }

/-- Embeds `Analysis.__set_quality_measurements` (`analysis.py`): append the
dataset-level and object-level measurements and warnings when any quality
indicator is configured. -/
def __set_quality_measurements {G : Type} (col : Collaborators G)
    (quality_indicators : List QualityIndicator) (s : AnalysisState G) :
    AnalysisState G :=
  if quality_indicators.length = 0 then
    s
  else
    { s with
      quality_measurement := s.quality_measurement
        ++ col.get_dataset_quality.1 ++ col.get_object_quality.1
      quality_warning := s.quality_warning
        ++ col.get_dataset_quality.2 ++ col.get_object_quality.2 }

/-- Embeds `Analysis.__sort_quality_measurements` (`analysis.py`): for each id
of `_QMS_SORT_ORDER` in order, append the measurements carrying that id. -/
def __sort_quality_measurements (quality_measurement : List QualityMeasurement) :
    List QualityMeasurement :=
  _QMS_SORT_ORDER.foldl (fun qms id =>
    let result := quality_measurement.filter
      (fun qm => qm.quality_dimension_id = id)
    if result.length > 0 then qms ++ result else qms) []

/-- A Python `AttributeError`, carrying the name of the attribute whose
lookup failed.  `OgcApiAnalysis` calls `self._add_run_algorithm(...)`
(`ogc_api_analysis.py`, lines 35 and 74), an attribute no class defines (the
base class defines `add_run_algorithm`), so those calls raise. -/
structure PyAttributeError where
  attributeName : String
deriving DecidableEq, Repr

/-- An exception escaping `Analysis.run`: the coverage stage's fatal
configuration error, or a Python `AttributeError` raised inside the
dispatched query or distance stage and propagating out of `run` uncaught. -/
inductive RunException where
  | dokAnalysisException (e : DokAnalysisException)
  | attributeError (e : PyAttributeError)
deriving DecidableEq, Repr

/-- The tail of `Analysis.run` (`analysis.py`) after the coverage branch: the
distance stage (only for the no-hit statuses; an exception it raises aborts
the remaining steps), the "deliver result" step label, the caller-facing
geometry representation, the default data, and the optional guidance and
quality-measurement enrichment. -/
def run_tail {G : Type} (ops : GeomOps G) (col : Collaborators G)
    (config : DatasetConfig) (quality_indicators : List QualityIndicator)
    (setDistance : AnalysisState G → Except PyAttributeError (AnalysisState G))
    (include_guidance include_quality_measurement : Bool)
    (s : AnalysisState G) : Except PyAttributeError (AnalysisState G) :=
  match
    (if s.result_status = ResultStatus.NO_HIT_GREEN ∨
        s.result_status = ResultStatus.NO_HIT_YELLOW then
      setDistance s
    else .ok s) with
  | .error e => .error e
  | .ok s =>
    let s := add_run_algorithm "deliver result" s
    let s := { s with
      run_on_input_geometry_json := some (ops.create_run_on_input_geometry_json (working s)) }
    let s := set_default_data col config s
    let s :=
      if include_guidance ∧ s.geolett.isSome then __set_guidance_data s else s
    .ok (if include_quality_measurement then
      __set_quality_measurements col quality_indicators s
    else s)

/-- Embeds `Analysis.run` (`analysis.py`).  The dynamically dispatched
`run_queries` and `set_distance_to_object` are parameters (`runQueries`,
`setDistance`), mirroring the source's dispatch on the concrete subclass;
both may raise a Python `AttributeError` — as the `OgcApiAnalysis` bodies do
through their undefined `_add_run_algorithm` calls — which propagates out of
`run` uncaught.  The TIMEOUT/ERROR branch returns early after
`set_default_data`, exactly as the source does. -/
def Analysis.run {G : Type} (ops : GeomOps G) (col : Collaborators G)
    (config : DatasetConfig) (quality_indicators : List QualityIndicator)
    (runQueries setDistance : AnalysisState G → Except PyAttributeError (AnalysisState G))
    (include_guidance include_quality_measurement : Bool)
    (s : AnalysisState G) : Except RunException (AnalysisState G) :=
  let s := __set_input_geometry ops s
  match __run_coverage_analysis col quality_indicators s with
  | .error e => .error (RunException.dokAnalysisException e)
  | .ok s =>
    if s.has_coverage then
      match runQueries s with
      | .error e => .error (RunException.attributeError e)
      | .ok s =>
        if s.result_status = ResultStatus.TIMEOUT ∨
           s.result_status = ResultStatus.ERROR then
          .ok (set_default_data col config s)
        else
          match run_tail ops col config quality_indicators setDistance
              include_guidance include_quality_measurement
              (__set_geometry_areas ops s) with
          | .error e => .error (RunException.attributeError e)
          | .ok s => .ok s
    else
      match run_tail ops col config quality_indicators setDistance
          include_guidance include_quality_measurement
          { s with result_status := ResultStatus.NO_HIT_YELLOW } with
      | .error e => .error (RunException.attributeError e)
      | .ok s => .ok s

/-- Models the pydash `get(feature['properties'], mapping, None)` lookup used
by `__map_properties` (`ogc_api_analysis.py`): the property bag is keyed by
the dotted path. -/
def pydash_get (properties : List (String × Option String)) (path : String) :
    Option String :=
  match properties.lookup path with
  | some value => value
  | none => none

/-- Embeds `OgcApiAnalysis.__map_properties` (`ogc_api_analysis.py`): for
each configured mapping, key the last dotted segment to the looked-up value. -/
def __map_properties (feature_properties : List (String × Option String))
    (mappings : List String) : List (String × Option String) :=
  mappings.map (fun mapping =>
    ((mapping.splitOn ".").getLastD mapping, pydash_get feature_properties mapping))

/-- The pair of lists built by `OgcApiAnalysis.__parse_response`. -/
structure ParsedResponse (G : Type) where
  properties : List (List (String × Option String))
  geometries : List (Option G)
deriving DecidableEq, Repr

/-- Embeds `OgcApiAnalysis.__parse_response` (`ogc_api_analysis.py`).  The
per-feature `__get_geometry_from_response` JSON/transform helpers live outside
the provided sources, so each feature carries its resulting optional
geometry directly.  In the source this parser is invoked only from the
hit-processing block after line 35 of `_run_queries`, which the
`AttributeError` raised there makes unreachable. -/
def __parse_response {G : Type} (config : DatasetConfig)
    (ogc_api_response : OgcApiResponse G) : ParsedResponse G :=
  { properties := ogc_api_response.features.map
      (fun feature => __map_properties feature.properties config.properties)
    geometries := ogc_api_response.features.map (fun feature => feature.geometry) }

/-- The layer loop of `OgcApiAnalysis._run_queries` (`ogc_api_analysis.py`):
scan the configured layers; break with TIMEOUT on status 408 or with ERROR on
any other non-200 status (lines 28-33).  On a 200 status the body's next
statement — line 35, `self._add_run_algorithm(f'intersect layer ...')` — is
an attribute lookup no class satisfies (the base class defines
`add_run_algorithm`), so the iteration raises `AttributeError` there; the
hit-processing block below it (`__parse_response`, the layer's hit status,
lines 36-50) and every further iteration are unreachable. -/
def _run_queries_loop {G : Type} (col : Collaborators G)
    (w : G) : List LayerConfig → Option Geolett → AnalysisState G →
    Except PyAttributeError (Option Geolett × AnalysisState G)
  | [], geolett_data, s => .ok (geolett_data, s)
  | layer :: _, geolett_data, s =>
    let outcome := col.query_ogc_api layer w
    let status_code := outcome.1
    if status_code = 408 then
      .ok (geolett_data, { s with result_status := ResultStatus.TIMEOUT })
    else if status_code ≠ 200 then
      .ok (geolett_data, { s with result_status := ResultStatus.ERROR })
    else
      .error ⟨"_add_run_algorithm"⟩

/-- Embeds `OgcApiAnalysis._run_queries` (`ogc_api_analysis.py`): fetch the
guidance data of the first layer, run the layer loop on the working geometry,
and store the resulting guidance data; an `AttributeError` raised inside the
loop propagates. -/
def OgcApiAnalysis._run_queries {G : Type} (col : Collaborators G)
    (config : DatasetConfig) (s : AnalysisState G) :
    Except PyAttributeError (AnalysisState G) :=
  let first_layer := config.layers.headI
  let geolett_data := col.get_geolett_data first_layer.geolett_id
  match _run_queries_loop col (working s) config.layers geolett_data s with
  | .error e => .error e
  | .ok result => .ok { result.2 with geolett := result.1 }

/-- Python's `sys.maxsize` on a 64-bit platform, the sentinel distance. -/
def maxsize : ℤ := 2 ^ 63 - 1

/-- Embeds `OgcApiAnalysis._set_distance_to_object` (`ogc_api_analysis.py`):
buffer the original input geometry by the fixed 20000-unit radius and query
the first layer against it.  With no response (lines 60-62), the `maxsize`
sentinel is assigned and the method returns.  With a response, the rounded
distances are computed and sorted (lines 64-73, side-effect free; Python
`list.sort()` modelled as a stable sort) and then line 74 calls
`self._add_run_algorithm('get distance')` — an attribute no class defines —
raising `AttributeError` before `distance_to_object` is ever assigned; the
assignment of the minimum or the sentinel (lines 76-79) is unreachable. -/
def OgcApiAnalysis._set_distance_to_object {G : Type} (ops : GeomOps G)
    (col : Collaborators G) (config : DatasetConfig) (s : AnalysisState G) :
    Except PyAttributeError (AnalysisState G) :=
  let buffered_geom := ops.create_buffered_geometry s.geometry 20000
  let layer := config.layers.headI
  let outcome := col.query_ogc_api layer buffered_geom
  match outcome.2 with
  | none => .ok { s with distance_to_object := maxsize }
  | some response =>
    let _distances := ((response.features.filterMap (fun feature => feature.geometry)).map
      (fun feature_geom => round (ops.Distance (working s) feature_geom))).insertionSort (· ≤ ·)
    .error ⟨"_add_run_algorithm"⟩

/-- Whether a Python method definition is a concrete body or an
`@abstractmethod` stub. -/
inductive MethodKind where
  | concrete
  | abstractStub
deriving DecidableEq, Repr

/-- The method table of class `Analysis` (`analysis.py`): every `def` of the
class body with its kind.  Double-underscore names are listed unmangled; name
mangling does not affect which attribute names exist for dispatch of the
names the claims concern. -/
def analysisClassMethods : List (String × MethodKind) :=
  [("__init__", .concrete),
   ("run", .concrete),
   ("add_run_algorithm", .concrete),
   ("set_default_data", .concrete),
   ("__run_coverage_analysis", .concrete),
   ("__set_input_geometry", .concrete),
   ("__set_geometry_areas", .concrete),
   ("__set_guidance_data", .concrete),
   ("__set_quality_measurements", .concrete),
   ("__sort_quality_measurements", .concrete),
   ("to_dict", .concrete),
   ("run_queries", .abstractStub),
   ("set_distance_to_object", .abstractStub)]

/-- The method table of class `OgcApiAnalysis` (`ogc_api_analysis.py`): every
`def` of the class body with its kind. -/
def ogcApiAnalysisClassMethods : List (String × MethodKind) :=
  [("__init__", .concrete),
   ("_run_queries", .concrete),
   ("_set_distance_to_object", .concrete),
   ("__parse_response", .concrete),
   ("__map_properties", .concrete),
   ("__get_geometry_from_response", .concrete)]

/-- Python attribute resolution on an `OgcApiAnalysis` instance: look in the
subclass, then in the base class `Analysis`. -/
def resolve_method (name : String) : Option MethodKind :=
  match ogcApiAnalysisClassMethods.lookup name with
  | some kind => some kind
  | none => analysisClassMethods.lookup name

/-- Whether a dynamically dispatched name resolves to a concrete
implementation on an `OgcApiAnalysis` instance. -/
def resolves_to_implementation (name : String) : Bool :=
  match resolve_method name with
  | some MethodKind.concrete => true
  | _ => false

/-- A concrete geometry value instantiating the opaque geometry capability
for witnesses and counterexamples: an area and a geometry-type tag. -/
structure SimpleGeom where
  area : ℚ
  gtype : GeomType
deriving DecidableEq, Repr, Inhabited

/-- A concrete instantiation of the geometry capability over `SimpleGeom`,
used to evaluate the pipeline on explicit inputs. -/
def simpleOps : GeomOps SimpleGeom where
  Clone := id
  GetArea := fun g => g.area
  GetGeometryType := fun g => g.gtype
  Intersection := fun a b => some ⟨min a.area b.area, b.gtype⟩
  Distance := fun _ b => b.area
  create_buffered_geometry := fun g d => ⟨g.area + d, g.gtype⟩
  create_run_on_input_geometry_json := fun _ => "geojson"

/-- A neutral collaborator environment over `SimpleGeom`; concrete scenarios
override individual fields. -/
def baseCol : Collaborators SimpleGeom where
  query_ogc_api := fun _ _ => (200, none)
  get_geolett_data := fun _ => none
  get_raster_result := fun _ _ => none
  get_cartography_url := fun _ _ => none
  get_kartkatalog_metadata := none
  get_values_from_wfs := ([], PyFloat.zero)
  get_codelist := none
  get_dataset_quality := ([], [])
  get_object_quality := ([], [])

/-- A one-layer dataset configuration used by the concrete scenarios. -/
def demoLayer : LayerConfig :=
  { ogc_api := "lyr"
    geolett_id := some "gid"
    wms := none
    result_status := ResultStatus.HIT_GREEN }

/-- A dataset configuration with the single layer `demoLayer`. -/
def demoCfg : DatasetConfig :=
  { title := some "Tittel"
    themes := ["tema"]
    layers := [demoLayer]
    properties := []
    wms := none }

/-- A COVERAGE-kind quality indicator with a configured WFS source. -/
def demoCov : QualityIndicator :=
  { type := QualityIndicatorType.COVERAGE
    quality_dimension_id := "fullstendighet_dekning"
    quality_dimension_name := "Dekningskart"
    quality_warning_text := "Varseltekst"
    threshold_values := ["ikkeKartlagt"]
    has_wfs := true }

/-- A non-COVERAGE quality indicator without a WFS source. -/
def demoOther : QualityIndicator :=
  { type := QualityIndicatorType.OTHER
    quality_dimension_id := "egnethet_byggesak"
    quality_dimension_name := "Egnethet"
    quality_warning_text := "Annen varseltekst"
    threshold_values := []
    has_wfs := false }

/-- An initial analysis state over a 10-area polygon with no buffer. -/
def demoState : AnalysisState SimpleGeom :=
  { geometry := ⟨10, GeomType.wkbPolygon⟩ }

/-- C10: dynamic dispatch on an `OgcApiAnalysis` instance does not resolve the
names `Analysis.run` and the query/distance stages use: `run_queries` and
`set_distance_to_object` resolve only to the abstract stubs of the base class
(the subclass defines `_run_queries` and `_set_distance_to_object` instead),
and the step-label appender invoked inside the query and distance stages,
`_add_run_algorithm`, resolves to nothing at all (the base class defines
`add_run_algorithm`).  The claim that every dynamically dispatched method
resolves to an implementation is therefore false on the code. -/
theorem C10_dispatch_unresolved :
  resolve_method "_add_run_algorithm" = none ∧
  resolve_method "run_queries" = some MethodKind.abstractStub ∧
  resolve_method "set_distance_to_object" = some MethodKind.abstractStub ∧
  resolves_to_implementation "run_queries" = false ∧
  resolves_to_implementation "set_distance_to_object" = false ∧
  resolves_to_implementation "_add_run_algorithm" = false ∧
  resolve_method "add_run_algorithm" = some MethodKind.concrete ∧
  resolve_method "_run_queries" = some MethodKind.concrete := by
  decide

/-- C2, failing input: with the dataset's quality indicators
`[demoOther, demoCov]` — exactly one COVERAGE-kind indicator, in second
position — `__run_coverage_analysis` passes `quality_indicators[0]`, the
non-coverage indicator `demoOther`, to the coverage evaluator: the run ends
with `has_coverage = false` (because `demoOther` has no WFS source the
evaluator returns the empty value set), whereas evaluating the actual
COVERAGE indicator `demoCov` yields `has_coverage = true`.  The claim that
the CoverageCheck stage invokes the evaluator with the COVERAGE-kind
indicator regardless of its position is false on the code. -/
theorem C2_wrong_indicator_passed :
  (([demoOther, demoCov].filter
      (fun indicator => indicator.type = QualityIndicatorType.COVERAGE)) = [demoCov]) ∧
  ((__run_coverage_analysis
      { baseCol with get_values_from_wfs := (["kartlagt"], ⟨100, "100.0"⟩) }
      [demoOther, demoCov] demoState).map (fun s => s.has_coverage)
    = Except.ok false) ∧
  ((get_coverage_quality
      { baseCol with get_values_from_wfs := (["kartlagt"], ⟨100, "100.0"⟩) }
      demoCov).2.2 = true) := by
  refine ⟨by decide, by rfl, by decide⟩

/-- A coverage indicator whose configured threshold-value list contains the
empty string, exhibiting the truthiness edge case of `_get_warning_text`. -/
def emptyThresholdCov : QualityIndicator :=
  { demoCov with threshold_values := [""] }

/-- C6, counterexample: with returned values `[""]` and configured threshold
values `[""]`, a returned value equals a configured threshold value, yet no
warning is produced — the Python `any` generators test string truthiness, so
the empty string never fires the warning.  The claimed "if and only if" is
false on the code. -/
theorem C6_counterexample :
  (∃ v ∈ ([""] : List String), v ∈ get_threshold_values emptyThresholdCov) ∧
  _get_warning_text emptyThresholdCov [""] ⟨50, "50.0"⟩ = none := by
  exact ⟨by decide, by decide⟩

/-- C6 as amended: a coverage warning is produced if and only if some
non-empty returned coverage value equals one of the indicator's configured
threshold values (the Python truthiness test silently drops empty strings);
when produced, a percentage strictly between 0 and 100 yields the percentage
(decimal point replaced by a comma) followed by " % av " and the lower-cased
configured warning text, while a percentage of 0 or 100 yields the configured
warning text unchanged. -/
theorem C6_amended_warning_text (qi : QualityIndicator) (values : List String)
    (p : PyFloat) :
    (_get_warning_text qi values p ≠ none ↔
      ∃ v ∈ values, v ≠ "" ∧ v ∈ get_threshold_values qi) ∧
    (∀ w, _get_warning_text qi values p = some w →
      ((0 < p.val ∧ p.val < 100) →
        w = (p.repr.replace "." ",") ++ " % av " ++ qi.quality_warning_text.toLower) ∧
      ((p.val = 0 ∨ p.val = 100) → w = qi.quality_warning_text)) := by
  simp only [_get_warning_text]
  set b := values.any (fun value =>
    ((get_threshold_values qi).any (fun t_value => t_value == value && t_value != "")) &&
      value != "") with hb
  have hbiff : b = true ↔ ∃ v ∈ values, v ≠ "" ∧ v ∈ get_threshold_values qi := by
    rw [hb]
    simp only [List.any_eq_true, Bool.and_eq_true, beq_iff_eq, bne_iff_ne]
    constructor
    · rintro ⟨v, hv, ⟨t, ht, hteq, htne⟩, hvne⟩
      exact ⟨v, hv, hvne, hteq ▸ ht⟩
    · rintro ⟨v, hv, hvne, hvt⟩
      exact ⟨v, hv, ⟨v, hvt, rfl, hvne⟩, hvne⟩
  constructor
  · rw [← hbiff]
    by_cases hB : b = true
    · rw [if_pos hB]
      constructor
      · intro _
        exact hB
      · intro _
        split <;> simp
    · rw [if_neg hB]
      constructor
      · intro h
        exact absurd rfl h
      · intro h
        exact absurd h hB
  · intro w hw
    by_cases hB : b = true
    · rw [if_pos hB] at hw
      by_cases hr : 0 < p.val ∧ p.val < 100
      · rw [if_pos hr] at hw
        refine ⟨fun _ => (Option.some_inj.mp hw).symm, fun hedge => ?_⟩
        exfalso
        rcases hedge with h0 | h100
        · rw [h0] at hr
          exact lt_irrefl 0 hr.1
        · rw [h100] at hr
          exact lt_irrefl (100 : ℚ) hr.2
      · rw [if_neg hr] at hw
        exact ⟨fun hc => absurd hc hr, fun _ => (Option.some_inj.mp hw).symm⟩
    · rw [if_neg hB] at hw
      exact absurd hw (by simp)

/-- Witness for the amended C6: with returned values `["ikkeKartlagt"]`,
threshold values `["ikkeKartlagt"]` and covered percentage 100, the warning
is produced and equals the configured warning text unchanged. -/
theorem C6_amended_warning_text_witness :
    ("Varseltekst" : String) = demoCov.quality_warning_text := by
  exact ((C6_amended_warning_text demoCov ["ikkeKartlagt"] ⟨100, "100.0"⟩).2
    "Varseltekst" (by decide)).2 (Or.inr rfl)

/-- With a configured WFS source returning the empty value set, the coverage
evaluator returns no measurements, no warning and `hasCoverage = false`. -/
theorem get_coverage_quality_empty {G : Type} (col : Collaborators G)
    (qi : QualityIndicator) (hwfs : qi.has_wfs = true)
    (he : col.get_values_from_wfs.1 = []) :
    get_coverage_quality col qi = ([], none, false) := by
  unfold get_coverage_quality _get_coverage_quality_data _get_values_from_web_service
  rw [if_pos hwfs]
  rw [if_pos (by simp [he])]

/-- With a configured WFS source returning a non-empty value set, the
evaluator's adequacy flag is `_has_coverage` of the returned values. -/
theorem get_coverage_quality_flag {G : Type} (col : Collaborators G)
    (qi : QualityIndicator) (hwfs : qi.has_wfs = true)
    (hne : col.get_values_from_wfs.1 ≠ []) :
    (get_coverage_quality col qi).2.2 = _has_coverage col.get_values_from_wfs.1 := by
  unfold get_coverage_quality _get_coverage_quality_data _get_values_from_web_service
  rw [if_pos hwfs]
  rw [if_neg (by simpa [List.length_eq_zero] using hne)]

/-- A non-empty value list consisting only of the "not mapped" sentinel is
judged inadequate. -/
theorem has_coverage_all_sentinel (values : List String)
    (hall : ∀ v ∈ values, v = "ikkeKartlagt") (hne : values ≠ []) :
    _has_coverage values = false := by
  obtain ⟨v0, hv0⟩ := List.exists_mem_of_ne_nil values hne
  have hmem : "ikkeKartlagt" ∈ values := (hall v0 hv0) ▸ hv0
  rw [_has_coverage, if_pos hmem]
  rw [List.any_eq_false]
  intro v hv
  simp only [bne_iff_ne, ne_eq, Decidable.not_not]
  exact hall v hv

/-- A value list containing some value other than the "not mapped" sentinel
is judged adequate. -/
theorem has_coverage_of_exists_other (values : List String)
    (h : ∃ v ∈ values, v ≠ "ikkeKartlagt") :
    _has_coverage values = true := by
  rw [_has_coverage]
  by_cases hmem : "ikkeKartlagt" ∈ values
  · rw [if_pos hmem]
    simp only [List.any_eq_true, bne_iff_ne]
    exact h
  · rw [if_neg hmem]

/-- C5: for every list of coverage values returned by the coverage-value
source, the empty list yields no measurements, no warning and
`hasCoverage = false`; a non-empty list whose only value is "ikkeKartlagt"
yields `hasCoverage = false`; a list containing "ikkeKartlagt" together with
at least one other, non-sentinel value yields `hasCoverage = true`; and any
other combination yields `hasCoverage = true`. -/
theorem C5_coverage_adequacy {G : Type} (col : Collaborators G)
    (qi : QualityIndicator) (values : List String) (p : PyFloat)
    (hwfs : qi.has_wfs = true) (hv : col.get_values_from_wfs = (values, p)) :
    (values = [] → get_coverage_quality col qi = ([], none, false)) ∧
    (values ≠ [] → (∀ v ∈ values, v = "ikkeKartlagt") →
      (get_coverage_quality col qi).2.2 = false) ∧
    ("ikkeKartlagt" ∈ values →
      (∃ v ∈ values, v ≠ "ikkeKartlagt" ∧ v ≠ "ikkeRelevant") →
      (get_coverage_quality col qi).2.2 = true) ∧
    (values ≠ [] → ¬ (∀ v ∈ values, v = "ikkeKartlagt") →
      (get_coverage_quality col qi).2.2 = true) := by
  have hfst : col.get_values_from_wfs.1 = values := by rw [hv]
  refine ⟨?_, ?_, ?_, ?_⟩
  · intro he
    exact get_coverage_quality_empty col qi hwfs (hfst.trans he)
  · intro hne hall
    rw [get_coverage_quality_flag col qi hwfs (by rw [hfst]; exact hne), hfst]
    exact has_coverage_all_sentinel values hall hne
  · intro hmem hex
    have hne : values ≠ [] := List.ne_nil_of_mem hmem
    rw [get_coverage_quality_flag col qi hwfs (by rw [hfst]; exact hne), hfst]
    obtain ⟨v, hvmem, hv1, _⟩ := hex
    exact has_coverage_of_exists_other values ⟨v, hvmem, hv1⟩
  · intro hne hnall
    rw [get_coverage_quality_flag col qi hwfs (by rw [hfst]; exact hne), hfst]
    push_neg at hnall
    exact has_coverage_of_exists_other values hnall

/-- Witness for C5: with returned values `["ikkeKartlagt", "kartlagt"]` —
the "not mapped" sentinel together with a non-sentinel value — the evaluator
judges coverage adequate. -/
theorem C5_coverage_adequacy_witness :
    (get_coverage_quality
      { baseCol with get_values_from_wfs := (["ikkeKartlagt", "kartlagt"], ⟨50, "50.0"⟩) }
      demoCov).2.2 = true := by
  exact (C5_coverage_adequacy
    { baseCol with get_values_from_wfs := (["ikkeKartlagt", "kartlagt"], ⟨50, "50.0"⟩) }
    demoCov ["ikkeKartlagt", "kartlagt"] ⟨50, "50.0"⟩ rfl rfl).2.2.1
    (by decide) (by decide)

/-- The priority rank of a quality-dimension id: its index in
`_QMS_SORT_ORDER`. -/
def qmsRank (id : String) : ℕ := _QMS_SORT_ORDER.indexOf id

/-- The fold of `__sort_quality_measurements` appends, for each id in order,
the measurements filtered by that id. -/
theorem sort_foldl_extend (order : List String) (qms : List QualityMeasurement)
    (acc : List QualityMeasurement) :
    order.foldl (fun qms' id =>
      let result := qms.filter (fun qm => qm.quality_dimension_id = id)
      if result.length > 0 then qms' ++ result else qms') acc
    = acc ++ order.flatMap (fun id => qms.filter (fun qm => qm.quality_dimension_id = id)) := by
  induction order generalizing acc with
  | nil => simp
  | cons a t ih =>
    simp only [List.foldl_cons, List.flatMap_cons]
    rw [ih]
    by_cases h : (qms.filter (fun qm => qm.quality_dimension_id = a)).length > 0
    · simp only [if_pos h, List.append_assoc]
    · have hnil : qms.filter (fun qm => qm.quality_dimension_id = a) = [] := by
        rw [← List.length_eq_zero]
        omega
      rw [hnil]
      simp

/-- Structural form of `__sort_quality_measurements`: the concatenation, in
priority order, of the per-id filters of the input. -/
theorem sort_eq_flatMap (qms : List QualityMeasurement) :
    __sort_quality_measurements qms
    = _QMS_SORT_ORDER.flatMap (fun id => qms.filter (fun qm => qm.quality_dimension_id = id)) := by
  rw [__sort_quality_measurements, sort_foldl_extend, List.nil_append]

/-- Members of a per-id filter carry that id. -/
theorem key_of_mem_filter {qms : List QualityMeasurement} {id : String}
    {qm : QualityMeasurement}
    (h : qm ∈ qms.filter (fun qm => qm.quality_dimension_id = id)) :
    qm.quality_dimension_id = id := by
  have := (List.mem_filter.mp h).2
  exact of_decide_eq_true this

/-- Filtering a per-id filter by the same id is the identity. -/
theorem filter_key_self (qms : List QualityMeasurement) (id : String) :
    (qms.filter (fun qm => qm.quality_dimension_id = id)).filter
      (fun qm => qm.quality_dimension_id = id)
    = qms.filter (fun qm => qm.quality_dimension_id = id) := by
  rw [List.filter_filter]
  apply List.filter_congr
  intro x _
  rw [Bool.and_self]

/-- Filtering a per-id filter by a different id is empty. -/
theorem filter_key_other (qms : List QualityMeasurement) {id id' : String}
    (hne : id' ≠ id) :
    (qms.filter (fun qm => qm.quality_dimension_id = id')).filter
      (fun qm => qm.quality_dimension_id = id) = [] := by
  rw [List.filter_eq_nil_iff]
  intro qm hqm
  have := key_of_mem_filter hqm
  simp only [decide_eq_true_eq]
  rw [this]
  exact hne

/-- Filtering the ordered concatenation by an id of a duplicate-free order
recovers exactly the input's per-id filter. -/
theorem flatMap_filter_key (order : List String) (qms : List QualityMeasurement)
    (id : String) (hnd : order.Nodup) (hid : id ∈ order) :
    (order.flatMap (fun id' => qms.filter (fun qm => qm.quality_dimension_id = id'))).filter
      (fun qm => qm.quality_dimension_id = id)
    = qms.filter (fun qm => qm.quality_dimension_id = id) := by
  induction order with
  | nil => cases hid
  | cons a t ih =>
    rw [List.flatMap_cons, List.filter_append]
    by_cases hai : a = id
    · have h2 : (t.flatMap (fun id' =>
          qms.filter (fun qm => qm.quality_dimension_id = id'))).filter
            (fun qm => qm.quality_dimension_id = id) = [] := by
        rw [List.filter_flatMap]
        apply List.flatMap_eq_nil_iff.mpr
        intro id' hid'
        have hne : id' ≠ id := fun he =>
          (List.nodup_cons.mp hnd).1 ((he.trans hai.symm) ▸ hid')
        exact filter_key_other qms hne
      rw [hai, filter_key_self, h2, List.append_nil]
    · have hmem : id ∈ t := by
        rcases List.mem_cons.mp hid with h | h
        · exact absurd h.symm hai
        · exact h
      rw [filter_key_other qms hai, List.nil_append]
      exact ih (List.nodup_cons.mp hnd).2 hmem

/-- The ordered concatenation is sorted by the rank of the order list when
the order list itself is rank-sorted. -/
theorem pairwise_flatMap_rank (order : List String) (qms : List QualityMeasurement)
    (hord : order.Pairwise (fun a b => qmsRank a ≤ qmsRank b)) :
    (order.flatMap (fun id => qms.filter (fun qm => qm.quality_dimension_id = id))).Pairwise
      (fun a b => qmsRank a.quality_dimension_id ≤ qmsRank b.quality_dimension_id) := by
  induction order with
  | nil => simp
  | cons a t ih =>
    rw [List.flatMap_cons, List.pairwise_append]
    refine ⟨?_, ih (List.pairwise_cons.mp hord).2, ?_⟩
    · apply List.pairwise_of_forall_mem_list
      intro x hx y hy
      rw [key_of_mem_filter hx, key_of_mem_filter hy]
    · intro x hx y hy
      obtain ⟨b, hb, hyb⟩ := List.mem_flatMap.mp hy
      rw [key_of_mem_filter hx, key_of_mem_filter hyb]
      exact (List.pairwise_cons.mp hord).1 b hb

/-- C8: the serialized quality-measurement list is ordered by the fixed
dimension-id priority list `_QMS_SORT_ORDER`; measurements whose dimension id
is not in that list are excluded from the output; and measurements sharing a
dimension id keep their relative input order (their per-id filter of the
output equals their per-id filter of the input). -/
theorem C8_quality_measurement_order (qms : List QualityMeasurement) :
    (∀ qm ∈ __sort_quality_measurements qms,
      qm.quality_dimension_id ∈ _QMS_SORT_ORDER) ∧
    (∀ id ∈ _QMS_SORT_ORDER,
      (__sort_quality_measurements qms).filter (fun qm => qm.quality_dimension_id = id)
        = qms.filter (fun qm => qm.quality_dimension_id = id)) ∧
    (__sort_quality_measurements qms).Pairwise
      (fun a b => qmsRank a.quality_dimension_id ≤ qmsRank b.quality_dimension_id) := by
  rw [sort_eq_flatMap]
  refine ⟨?_, ?_, ?_⟩
  · intro qm hqm
    obtain ⟨id, hid, hmem⟩ := List.mem_flatMap.mp hqm
    exact (key_of_mem_filter hmem) ▸ hid
  · intro id hid
    exact flatMap_filter_key _QMS_SORT_ORDER qms id (by decide) hid
  · exact pairwise_flatMap_rank _QMS_SORT_ORDER qms (by decide)

/-- A measurement list with a recognized id in last position, an unrecognized
id, and another recognized id, exercising the ordering claim. -/
def demoQms : List QualityMeasurement :=
  [⟨"egnethet_byggesak", "Egnethet", "Ja", none⟩,
   ⟨"ukjent_dimensjon", "Ukjent", "Nei", none⟩,
   ⟨"fullstendighet_dekning", "Dekningskart", "Ja", none⟩]

/-- Witness for C8: on `demoQms`, the ordered output's coverage-dimension
measurements are exactly the input's, in input order. -/
theorem C8_quality_measurement_order_witness :
    (__sort_quality_measurements demoQms).filter
      (fun qm => qm.quality_dimension_id = "fullstendighet_dekning")
    = demoQms.filter (fun qm => qm.quality_dimension_id = "fullstendighet_dekning") :=
  (C8_quality_measurement_order demoQms).2.1 "fullstendighet_dekning" (by decide)

/-- The hit-area sum exactly as the claim words it: over all non-null result
geometries, the area of their intersection with the working geometry, counted
only when the intersection's geometry type is polygon or multi-polygon, with
no per-term rounding. -/
def claimed_hit_area {G : Type} (ops : GeomOps G) (s : AnalysisState G) : ℚ :=
  ((s.geometries.filterMap id).map (fun geometry =>
    match ops.Intersection (working s) geometry with
    | none => 0
    | some intersection =>
      if ops.GetGeometryType intersection = GeomType.wkbPolygon ∨
         ops.GetGeometryType intersection = GeomType.wkbMultiPolygon then
        ops.GetArea intersection
      else 0)).sum

/-- Summing over optional entries with `none` contributing zero equals
summing over the non-null entries. -/
theorem sum_over_options {G : Type} (f : G → ℚ) (l : List (Option G)) :
    (l.map (fun og => match og with | none => (0 : ℚ) | some g => f g)).sum
    = ((l.filterMap id).map f).sum := by
  induction l with
  | nil => simp
  | cons a t ih => cases a <;> simp [ih]

/-- A state whose query stage completed with zero result geometries. -/
def noGeomState : AnalysisState SimpleGeom :=
  { geometry := ⟨10, GeomType.wkbPolygon⟩
    run_on_input_geometry := some ⟨10, GeomType.wkbPolygon⟩ }

/-- C7, counterexample: when the query stage completes with an empty result-
geometry list, `__set_geometry_areas` returns early and `hitArea` stays unset
(`none`), not the rounded (empty) sum `some 0` the claim prescribes. -/
theorem C7_counterexample :
    (__set_geometry_areas simpleOps noGeomState).hit_area = none ∧
    (none : Option ℚ) ≠ some (round2 (claimed_hit_area simpleOps noGeomState)) := by
  exact ⟨rfl, by decide⟩

/-- C7 as amended: `inputGeometryArea` is always the working geometry's area
rounded to 2 decimals; when at least one result geometry is present (even a
null one), `hitArea` is the claim's sum — over all non-null result
geometries, the polygonal-intersection areas — rounded to 2 decimals once at
the end; when the result-geometry list is empty, `hitArea` is left unchanged
(unset). -/
theorem C7_amended_geometry_areas {G : Type} (ops : GeomOps G) (s : AnalysisState G) :
    ((__set_geometry_areas ops s).input_geometry_area
      = some (round2 (ops.GetArea (working s)))) ∧
    (s.geometries ≠ [] →
      (__set_geometry_areas ops s).hit_area = some (round2 (claimed_hit_area ops s))) ∧
    (s.geometries = [] → (__set_geometry_areas ops s).hit_area = s.hit_area) := by
  unfold __set_geometry_areas
  by_cases h : s.geometries.length = 0
  · rw [if_pos h]
    refine ⟨rfl, ?_, fun _ => rfl⟩
    intro hne
    exact absurd (List.length_eq_zero.mp h) hne
  · rw [if_neg h]
    refine ⟨rfl, ?_, ?_⟩
    · intro _
      simp only [claimed_hit_area]
      rw [sum_over_options]
      rfl
    · intro he
      exact absurd (he ▸ List.length_nil) h

/-- A state whose query stage produced a polygonal hit, a null geometry and a
line geometry. -/
def withGeomState : AnalysisState SimpleGeom :=
  { geometry := ⟨10, GeomType.wkbPolygon⟩
    run_on_input_geometry := some ⟨10, GeomType.wkbPolygon⟩
    geometries := [some ⟨7, GeomType.wkbPolygon⟩, none, some ⟨3, GeomType.wkbLineString⟩] }

/-- Witness for the amended C7: on `withGeomState` the hit area is the
rounded claim-sum. -/
theorem C7_amended_geometry_areas_witness :
    (__set_geometry_areas simpleOps withGeomState).hit_area
      = some (round2 (claimed_hit_area simpleOps withGeomState)) :=
  (C7_amended_geometry_areas simpleOps withGeomState).2.1 (by decide)

/-- When the distance query yields no response, the distance stage assigns
the `maxsize` sentinel and returns normally (the fault at line 74 is not
reached). -/
theorem sdto_none {G : Type} (ops : GeomOps G) (col : Collaborators G)
    (config : DatasetConfig) (s : AnalysisState G)
    (h : (col.query_ogc_api config.layers.headI
        (ops.create_buffered_geometry s.geometry 20000)).2 = none) :
    OgcApiAnalysis._set_distance_to_object ops col config s
      = .ok { s with distance_to_object := maxsize } := by
  unfold OgcApiAnalysis._set_distance_to_object
  dsimp only
  rw [h]

/-- When the distance query yields a response, the distance stage raises the
`AttributeError` of the misnamed step-label call before `distance_to_object`
is assigned. -/
theorem sdto_some {G : Type} (ops : GeomOps G) (col : Collaborators G)
    (config : DatasetConfig) (s : AnalysisState G) (r : OgcApiResponse G)
    (h : (col.query_ogc_api config.layers.headI
        (ops.create_buffered_geometry s.geometry 20000)).2 = some r) :
    OgcApiAnalysis._set_distance_to_object ops col config s
      = .error ⟨"_add_run_algorithm"⟩ := by
  unfold OgcApiAnalysis._set_distance_to_object
  dsimp only
  rw [h]

/-- Distance-stage features: a near polygon, a geometry-less feature, and a
far polygon. -/
def distFeatures : List (OgcFeature SimpleGeom) :=
  [⟨[], some ⟨4, GeomType.wkbPolygon⟩⟩, ⟨[], none⟩, ⟨[], some ⟨20, GeomType.wkbPolygon⟩⟩]

/-- C9: the distance computation the claim describes is unreachable in the
code.  Whenever the no-hit distance query returns a response — even one with
zero feature geometries, which the claim says yields the sentinel —
`_set_distance_to_object` reaches line 74's `self._add_run_algorithm('get
distance')`, an attribute no class defines, and raises `AttributeError`
before `distance_to_object` is assigned; the minimum-distance/sentinel
assignment of lines 76-79 is dead code.  Only the no-response path (lines
60-62, before the fault) assigns the `maxsize` sentinel as the claim says. -/
theorem C9_distance_stage_faults :
    (OgcApiAnalysis._set_distance_to_object simpleOps
        { baseCol with query_ogc_api := fun _ _ => (200, some ⟨distFeatures⟩) }
        demoCfg noGeomState
      = .error ⟨"_add_run_algorithm"⟩) ∧
    (OgcApiAnalysis._set_distance_to_object simpleOps
        { baseCol with query_ogc_api := fun _ _ => (200, some ⟨[]⟩) }
        demoCfg noGeomState
      = .error ⟨"_add_run_algorithm"⟩) ∧
    (OgcApiAnalysis._set_distance_to_object simpleOps baseCol demoCfg noGeomState
      = .ok { noGeomState with distance_to_object := maxsize }) := by
  exact ⟨rfl, rfl, rfl⟩

/-- With more than one COVERAGE-kind indicator configured, the coverage stage
raises the fatal configuration error. -/
theorem rca_error {G : Type} (col : Collaborators G) (qis : List QualityIndicator)
    (s : AnalysisState G)
    (h : 1 < (qis.filter (fun i => i.type = QualityIndicatorType.COVERAGE)).length) :
    __run_coverage_analysis col qis s
    = .error ⟨"A dataset can only have one coverage quality indicator"⟩ := by
  unfold __run_coverage_analysis
  have hqne : ¬ qis.length = 0 := by
    intro h0
    rw [List.length_eq_zero.mp h0] at h
    simp at h
  rw [if_neg hqne]
  have hcne : ¬ (qis.filter (fun i => i.type = QualityIndicatorType.COVERAGE)).length = 0 := by
    omega
  rw [if_neg hcne, if_pos h]

/-- With at most one COVERAGE-kind indicator configured, the coverage stage
never raises. -/
theorem rca_ok {G : Type} (col : Collaborators G) (qis : List QualityIndicator)
    (s : AnalysisState G)
    (h : (qis.filter (fun i => i.type = QualityIndicatorType.COVERAGE)).length ≤ 1) :
    ∃ s', __run_coverage_analysis col qis s = .ok s' := by
  unfold __run_coverage_analysis
  by_cases h0 : qis.length = 0
  · rw [if_pos h0]
    exact ⟨s, rfl⟩
  · rw [if_neg h0]
    by_cases hc : (qis.filter (fun i => i.type = QualityIndicatorType.COVERAGE)).length = 0
    · rw [if_pos hc]
      exact ⟨s, rfl⟩
    · rw [if_neg hc, if_neg (by omega)]
      exact ⟨_, rfl⟩

/-- C3: with more than one COVERAGE-kind quality indicator configured,
`Analysis.run` raises the fatal `DokAnalysisException`, and it does so for
every possible query and distance stage — the result does not depend on
`runQueries` at all, so the error precedes any query execution; with zero or
one COVERAGE-kind indicators, the fatal configuration error is never raised,
whatever the dispatched stages do or raise. -/
theorem C3_duplicate_coverage_fatal {G : Type} (ops : GeomOps G) (col : Collaborators G)
    (cfg : DatasetConfig) (qis : List QualityIndicator)
    (ig iqm : Bool) (s : AnalysisState G) :
    (1 < (qis.filter (fun i => i.type = QualityIndicatorType.COVERAGE)).length →
      ∀ runQueries setDistance,
        Analysis.run ops col cfg qis runQueries setDistance ig iqm s
          = .error (RunException.dokAnalysisException
              ⟨"A dataset can only have one coverage quality indicator"⟩)) ∧
    ((qis.filter (fun i => i.type = QualityIndicatorType.COVERAGE)).length ≤ 1 →
      ∀ runQueries setDistance, ∀ e,
        Analysis.run ops col cfg qis runQueries setDistance ig iqm s
          ≠ .error (RunException.dokAnalysisException e)) := by
  constructor
  · intro h rq sd
    unfold Analysis.run
    dsimp only
    rw [rca_error col qis _ h]
  · intro h rq sd e
    obtain ⟨s', hs'⟩ := rca_ok col qis (__set_input_geometry ops s) h
    unfold Analysis.run
    dsimp only
    rw [hs']
    dsimp only
    by_cases hc : s'.has_coverage = true
    · rw [if_pos hc]
      cases hrq : rq s' with
      | error e' => simp
      | ok s₂ =>
        dsimp only
        by_cases ht : s₂.result_status = ResultStatus.TIMEOUT ∨
            s₂.result_status = ResultStatus.ERROR
        · rw [if_pos ht]
          simp
        · rw [if_neg ht]
          cases htail : run_tail ops col cfg qis sd ig iqm
              (__set_geometry_areas ops s₂) with
          | error e' => simp
          | ok s₃ => simp
    · rw [if_neg hc]
      cases htail : run_tail ops col cfg qis sd ig iqm
          { s' with result_status := ResultStatus.NO_HIT_YELLOW } with
      | error e' => simp
      | ok s₃ => simp

/-- Witness for C3: running with the duplicated coverage indicator raises
the fatal configuration error. -/
theorem C3_duplicate_coverage_fatal_witness :
    Analysis.run simpleOps baseCol demoCfg [demoCov, demoCov]
      (fun t => .ok t) (fun t => .ok t) true true demoState
    = Except.error (RunException.dokAnalysisException
        ⟨"A dataset can only have one coverage quality indicator"⟩) :=
  (C3_duplicate_coverage_fatal simpleOps baseCol demoCfg [demoCov, demoCov]
    true true demoState).1 (by decide) (fun t => .ok t) (fun t => .ok t)

/-- With no quality indicators configured, the coverage stage is a no-op. -/
theorem rca_nil {G : Type} (col : Collaborators G) (s : AnalysisState G) :
    __run_coverage_analysis col [] s = .ok s := rfl

/-- The PrepareGeometry stage touches only the step labels and the working
geometry. -/
theorem sig_preserves {G : Type} (ops : GeomOps G) (s : AnalysisState G) :
    ((__set_input_geometry ops s).has_coverage = s.has_coverage) ∧
    ((__set_input_geometry ops s).input_geometry_area = s.input_geometry_area) ∧
    ((__set_input_geometry ops s).hit_area = s.hit_area) ∧
    ((__set_input_geometry ops s).distance_to_object = s.distance_to_object) ∧
    ((__set_input_geometry ops s).geolett = s.geolett) ∧
    ((__set_input_geometry ops s).result_status = s.result_status) ∧
    ((__set_input_geometry ops s).geometry = s.geometry) := by
  unfold __set_input_geometry add_run_algorithm
  by_cases hb : s.buffer > 0 <;> simp [hb]

/-- When the query capability reports 408 for the first configured layer, the
query stage breaks immediately with TIMEOUT, setting only the status and the
guidance data. -/
theorem rq_timeout {G : Type} (col : Collaborators G) (cfg : DatasetConfig)
    (layer : LayerConfig) (rest : List LayerConfig) (s : AnalysisState G)
    (hl : cfg.layers = layer :: rest)
    (hq : ∀ g : G, (col.query_ogc_api layer g).1 = 408) :
    OgcApiAnalysis._run_queries col cfg s
    = .ok { s with result_status := ResultStatus.TIMEOUT
                   geolett := col.get_geolett_data layer.geolett_id } := by
  unfold OgcApiAnalysis._run_queries
  rw [hl]
  simp only [List.headI_cons, _run_queries_loop]
  rw [hq (working s)]
  simp

/-- When the query capability reports a non-200, non-408 status for the first
configured layer, the query stage breaks immediately with ERROR. -/
theorem rq_error {G : Type} (col : Collaborators G) (cfg : DatasetConfig)
    (layer : LayerConfig) (rest : List LayerConfig) (s : AnalysisState G) (c : ℤ)
    (hl : cfg.layers = layer :: rest)
    (hq : ∀ g : G, (col.query_ogc_api layer g).1 = c)
    (h408 : c ≠ 408) (h200 : c ≠ 200) :
    OgcApiAnalysis._run_queries col cfg s
    = .ok { s with result_status := ResultStatus.ERROR
                   geolett := col.get_geolett_data layer.geolett_id } := by
  unfold OgcApiAnalysis._run_queries
  rw [hl]
  simp only [List.headI_cons, _run_queries_loop]
  rw [hq (working s)]
  rw [if_neg h408, if_pos h200]

/-- C4: when the dataset query capability reports status 408 the run ends
with TIMEOUT, and with any other non-200 status it ends with ERROR; in both
cases the remaining stages are skipped — `inputGeometryArea` and `hitArea`
are never computed, `distanceToObject` keeps its default, and the result is
identical for every distance stage — while the minimal, well-formed result
(title, themes, dataset metadata) is still produced. -/
theorem C4_transport_short_circuit {G : Type} (ops : GeomOps G) (col : Collaborators G)
    (cfg : DatasetConfig) (layer : LayerConfig) (rest : List LayerConfig) (c : ℤ)
    (ig iqm : Bool) (s : AnalysisState G)
    (hl : cfg.layers = layer :: rest)
    (hq : ∀ g : G, (col.query_ogc_api layer g).1 = c)
    (hcov : s.has_coverage = true) :
    (c = 408 → ∀ sd, ∃ s',
      Analysis.run ops col cfg [] (OgcApiAnalysis._run_queries col cfg) sd ig iqm s
        = .ok s' ∧
      s'.result_status = ResultStatus.TIMEOUT ∧
      s'.input_geometry_area = s.input_geometry_area ∧
      s'.hit_area = s.hit_area ∧
      s'.distance_to_object = s.distance_to_object ∧
      s'.themes = some cfg.themes ∧
      s'.run_on_dataset = col.get_kartkatalog_metadata ∧
      s'.title = (match col.get_geolett_data layer.geolett_id with
                  | some geolett => some geolett.tittel
                  | none => cfg.title) ∧
      (∀ sd', Analysis.run ops col cfg [] (OgcApiAnalysis._run_queries col cfg) sd' ig iqm s
        = Analysis.run ops col cfg [] (OgcApiAnalysis._run_queries col cfg) sd ig iqm s)) ∧
    (c ≠ 408 → c ≠ 200 → ∀ sd, ∃ s',
      Analysis.run ops col cfg [] (OgcApiAnalysis._run_queries col cfg) sd ig iqm s
        = .ok s' ∧
      s'.result_status = ResultStatus.ERROR ∧
      s'.input_geometry_area = s.input_geometry_area ∧
      s'.hit_area = s.hit_area ∧
      s'.distance_to_object = s.distance_to_object ∧
      s'.themes = some cfg.themes ∧
      s'.run_on_dataset = col.get_kartkatalog_metadata ∧
      s'.title = (match col.get_geolett_data layer.geolett_id with
                  | some geolett => some geolett.tittel
                  | none => cfg.title) ∧
      (∀ sd', Analysis.run ops col cfg [] (OgcApiAnalysis._run_queries col cfg) sd' ig iqm s
        = Analysis.run ops col cfg [] (OgcApiAnalysis._run_queries col cfg) sd ig iqm s)) := by
  have hc1 : (__set_input_geometry ops s).has_coverage = true :=
    (sig_preserves ops s).1.trans hcov
  constructor
  · intro hc sd
    subst hc
    have hrq := rq_timeout col cfg layer rest (__set_input_geometry ops s) hl hq
    have hrun : ∀ sd', Analysis.run ops col cfg []
        (OgcApiAnalysis._run_queries col cfg) sd' ig iqm s
        = .ok (set_default_data col cfg
            { __set_input_geometry ops s with
              result_status := ResultStatus.TIMEOUT
              geolett := col.get_geolett_data layer.geolett_id }) := by
      intro sd'
      unfold Analysis.run
      dsimp only
      rw [rca_nil]
      dsimp only
      rw [if_pos hc1, hrq]
      dsimp only
      rw [if_pos (Or.inl rfl)]
    refine ⟨_, hrun sd, ?_, ?_, ?_, ?_, ?_, ?_, ?_, ?_⟩
    · rfl
    · exact (sig_preserves ops s).2.1
    · exact (sig_preserves ops s).2.2.1
    · exact (sig_preserves ops s).2.2.2.1
    · rfl
    · rfl
    · rfl
    · intro sd'
      exact (hrun sd').trans (hrun sd).symm
  · intro hc hc2 sd
    have hrq := rq_error col cfg layer rest (__set_input_geometry ops s) c hl hq hc hc2
    have hrun : ∀ sd', Analysis.run ops col cfg []
        (OgcApiAnalysis._run_queries col cfg) sd' ig iqm s
        = .ok (set_default_data col cfg
            { __set_input_geometry ops s with
              result_status := ResultStatus.ERROR
              geolett := col.get_geolett_data layer.geolett_id }) := by
      intro sd'
      unfold Analysis.run
      dsimp only
      rw [rca_nil]
      dsimp only
      rw [if_pos hc1, hrq]
      dsimp only
      rw [if_pos (Or.inr rfl)]
    refine ⟨_, hrun sd, ?_, ?_, ?_, ?_, ?_, ?_, ?_, ?_⟩
    · rfl
    · exact (sig_preserves ops s).2.1
    · exact (sig_preserves ops s).2.2.1
    · exact (sig_preserves ops s).2.2.2.1
    · rfl
    · rfl
    · rfl
    · intro sd'
      exact (hrun sd').trans (hrun sd).symm

/-- Witness for C4: a 408 answer on the single configured layer yields a
TIMEOUT result with unset areas, default distance, and populated themes. -/
theorem C4_transport_short_circuit_witness :
    ((Analysis.run simpleOps
        { baseCol with query_ogc_api := fun _ _ => (408, none) } demoCfg []
        (OgcApiAnalysis._run_queries
          { baseCol with query_ogc_api := fun _ _ => (408, none) } demoCfg)
        (fun t => .ok t) true true demoState).map
      (fun t => (t.result_status, t.hit_area, t.distance_to_object, t.themes)))
    = Except.ok (ResultStatus.TIMEOUT, (none : Option ℚ), (0 : ℤ),
        some demoCfg.themes) := by
  obtain ⟨s', hrun, h1, h2, h3, h4, h5, h6, h7, h8⟩ :=
    (C4_transport_short_circuit simpleOps
      { baseCol with query_ogc_api := fun _ _ => (408, none) } demoCfg demoLayer [] 408
      true true demoState rfl (fun g => rfl) rfl).1 rfl (fun t => .ok t)
  rw [hrun]
  simp only [Except.map]
  rw [h1, h3, h4, h5]
  rfl

/-- The step-label appender leaves the result status unchanged. -/
theorem ara_rs {G : Type} (a : String) (t : AnalysisState G) :
    (add_run_algorithm a t).result_status = t.result_status := rfl

/-- The step-label appender leaves the hit area unchanged. -/
theorem ara_ha {G : Type} (a : String) (t : AnalysisState G) :
    (add_run_algorithm a t).hit_area = t.hit_area := rfl

/-- The Finalize default-data step leaves the result status unchanged. -/
theorem sdd_rs {G : Type} (col : Collaborators G) (cfg : DatasetConfig)
    (t : AnalysisState G) :
    (set_default_data col cfg t).result_status = t.result_status := rfl

/-- The Finalize default-data step leaves the hit area unchanged. -/
theorem sdd_ha {G : Type} (col : Collaborators G) (cfg : DatasetConfig)
    (t : AnalysisState G) :
    (set_default_data col cfg t).hit_area = t.hit_area := rfl

/-- The guidance step leaves the result status unchanged. -/
theorem gd_rs {G : Type} (t : AnalysisState G) :
    (__set_guidance_data t).result_status = t.result_status := by
  unfold __set_guidance_data
  cases t.geolett
  · rfl
  · dsimp only
    split <;> rfl

/-- The guidance step leaves the hit area unchanged. -/
theorem gd_ha {G : Type} (t : AnalysisState G) :
    (__set_guidance_data t).hit_area = t.hit_area := by
  unfold __set_guidance_data
  cases t.geolett
  · rfl
  · dsimp only
    split <;> rfl

/-- The quality-measurement step leaves the result status unchanged. -/
theorem qms_rs {G : Type} (col : Collaborators G) (qis : List QualityIndicator)
    (t : AnalysisState G) :
    (__set_quality_measurements col qis t).result_status = t.result_status := by
  unfold __set_quality_measurements
  split <;> rfl

/-- The quality-measurement step leaves the hit area unchanged. -/
theorem qms_ha {G : Type} (col : Collaborators G) (qis : List QualityIndicator)
    (t : AnalysisState G) :
    (__set_quality_measurements col qis t).hit_area = t.hit_area := by
  unfold __set_quality_measurements
  split <;> rfl

/-- The tail of `Analysis.run` completes and preserves the result status and
the hit area whenever its distance stage completes without fault and
preserves them. -/
theorem run_tail_preserves {G : Type} (ops : GeomOps G) (col : Collaborators G)
    (cfg : DatasetConfig) (qis : List QualityIndicator)
    (sd : AnalysisState G → Except PyAttributeError (AnalysisState G))
    (ig iqm : Bool) (t u : AnalysisState G)
    (hsd : sd t = .ok u)
    (hrs : u.result_status = t.result_status)
    (hha : u.hit_area = t.hit_area) :
    ∃ v, run_tail ops col cfg qis sd ig iqm t = .ok v ∧
      v.result_status = t.result_status ∧ v.hit_area = t.hit_area := by
  unfold run_tail
  by_cases hnh : t.result_status = ResultStatus.NO_HIT_GREEN ∨
      t.result_status = ResultStatus.NO_HIT_YELLOW
  · rw [if_pos hnh, hsd]
    dsimp only
    refine ⟨_, rfl, ?_, ?_⟩
    · split
      · rw [qms_rs]
        split
        · rw [gd_rs, sdd_rs, ara_rs]
          exact hrs
        · rw [sdd_rs, ara_rs]
          exact hrs
      · split
        · rw [gd_rs, sdd_rs, ara_rs]
          exact hrs
        · rw [sdd_rs, ara_rs]
          exact hrs
    · split
      · rw [qms_ha]
        split
        · rw [gd_ha, sdd_ha, ara_ha]
          exact hha
        · rw [sdd_ha, ara_ha]
          exact hha
      · split
        · rw [gd_ha, sdd_ha, ara_ha]
          exact hha
        · rw [sdd_ha, ara_ha]
          exact hha
  · rw [if_neg hnh]
    dsimp only
    refine ⟨_, rfl, ?_, ?_⟩
    · split
      · rw [qms_rs]
        split
        · rw [gd_rs, sdd_rs, ara_rs]
        · rw [sdd_rs, ara_rs]
      · split
        · rw [gd_rs, sdd_rs, ara_rs]
        · rw [sdd_rs, ara_rs]
    · split
      · rw [qms_ha]
        split
        · rw [gd_ha, sdd_ha, ara_ha]
        · rw [sdd_ha, ara_ha]
      · split
        · rw [gd_ha, sdd_ha, ara_ha]
        · rw [sdd_ha, ara_ha]

/-- With one COVERAGE indicator backed by a WFS source that returns only the
"not mapped" sentinel, the coverage stage succeeds with `has_coverage = false`
and leaves hit area, status and geometry unchanged. -/
theorem rca_ikkeKartlagt {G : Type} (col : Collaborators G) (qi : QualityIndicator)
    (p : PyFloat) (s : AnalysisState G)
    (hqi : qi.type = QualityIndicatorType.COVERAGE) (hwfs : qi.has_wfs = true)
    (hsrc : col.get_values_from_wfs = (["ikkeKartlagt"], p)) :
    ∃ s₂, __run_coverage_analysis col [qi] s = .ok s₂ ∧
      s₂.has_coverage = false ∧
      s₂.hit_area = s.hit_area ∧
      s₂.result_status = s.result_status ∧
      s₂.geometry = s.geometry := by
  have hflag : (get_coverage_quality col qi).2.2 = false := by
    rw [get_coverage_quality_flag col qi hwfs (by rw [hsrc]; simp)]
    rw [hsrc]
    rfl
  unfold __run_coverage_analysis
  have hfil : ([qi].filter (fun i => i.type = QualityIndicatorType.COVERAGE)) = [qi] := by
    simp [hqi]
  rw [if_neg (by simp)]
  rw [hfil]
  rw [if_neg (by simp), if_neg (by simp)]
  dsimp only [List.headI]
  cases hw : (get_coverage_quality col qi).2.1 with
  | none =>
    exact ⟨_, rfl, hflag, rfl, rfl, rfl⟩
  | some w =>
    exact ⟨_, rfl, hflag, rfl, rfl, rfl⟩

/-- C1 as amended: when the coverage-value source returns the single value
"ikkeKartlagt" (not "ikkeRelevant" — the code treats only "ikkeKartlagt" as
coverage-denying), the dataset query stage is never invoked — the run's
outcome is identical for every `runQueries` — and `hitArea` is never set;
when the no-hit distance query then returns no response, the run completes
with resultStatus = NO_HIT_YELLOW and `hitArea` unset, while a response
makes the distance stage raise the `AttributeError` of its misnamed
step-label call (`ogc_api_analysis.py:74`, the C9/C10 naming bug), still
with no query executed and `hitArea` never set. -/
theorem C1_amended_no_coverage {G : Type} (ops : GeomOps G) (col : Collaborators G)
    (cfg : DatasetConfig) (qi : QualityIndicator) (p : PyFloat) (ig iqm : Bool)
    (s : AnalysisState G)
    (hqi : qi.type = QualityIndicatorType.COVERAGE) (hwfs : qi.has_wfs = true)
    (hsrc : col.get_values_from_wfs = (["ikkeKartlagt"], p))
    (hhit : s.hit_area = none) :
    (∀ runQueries runQueries' setDistance,
      Analysis.run ops col cfg [qi] runQueries setDistance ig iqm s
        = Analysis.run ops col cfg [qi] runQueries' setDistance ig iqm s) ∧
    (∀ runQueries,
      ((col.query_ogc_api cfg.layers.headI
          (ops.create_buffered_geometry s.geometry 20000)).2 = none →
        ∃ s', Analysis.run ops col cfg [qi] runQueries
            (OgcApiAnalysis._set_distance_to_object ops col cfg) ig iqm s
            = .ok s' ∧
          s'.result_status = ResultStatus.NO_HIT_YELLOW ∧
          s'.hit_area = none) ∧
      (∀ r, (col.query_ogc_api cfg.layers.headI
          (ops.create_buffered_geometry s.geometry 20000)).2 = some r →
        Analysis.run ops col cfg [qi] runQueries
            (OgcApiAnalysis._set_distance_to_object ops col cfg) ig iqm s
          = .error (RunException.attributeError ⟨"_add_run_algorithm"⟩))) := by
  obtain ⟨s₂, hrca, hcov, hha, hst, hgeom⟩ :=
    rca_ikkeKartlagt col qi p (__set_input_geometry ops s) hqi hwfs hsrc
  have hcond : ¬ s₂.has_coverage = true := by
    rw [hcov]
    simp
  have hgeom' : s₂.geometry = s.geometry := by
    rw [hgeom, (sig_preserves ops s).2.2.2.2.2.2]
  constructor
  · intro rq rq' sd
    unfold Analysis.run
    dsimp only
    rw [hrca]
    dsimp only
    rw [if_neg hcond, if_neg hcond]
  · intro rq
    constructor
    · intro hnone
      have hq2 : (col.query_ogc_api cfg.layers.headI
          (ops.create_buffered_geometry s₂.geometry 20000)).2 = none := by
        rw [hgeom']
        exact hnone
      have hsd := sdto_none ops col cfg
        { s₂ with result_status := ResultStatus.NO_HIT_YELLOW } hq2
      obtain ⟨v, hv, hvrs, hvha⟩ := run_tail_preserves ops col cfg [qi]
        (OgcApiAnalysis._set_distance_to_object ops col cfg) ig iqm
        { s₂ with result_status := ResultStatus.NO_HIT_YELLOW } _ hsd rfl rfl
      refine ⟨v, ?_, ?_, ?_⟩
      · unfold Analysis.run
        dsimp only
        rw [hrca]
        dsimp only
        rw [if_neg hcond, hv]
      · rw [hvrs]
      · rw [hvha]
        show s₂.hit_area = none
        rw [hha, (sig_preserves ops s).2.2.1, hhit]
    · intro r hsome
      have hq2 : (col.query_ogc_api cfg.layers.headI
          (ops.create_buffered_geometry s₂.geometry 20000)).2 = some r := by
        rw [hgeom']
        exact hsome
      have hsd := sdto_some ops col cfg
        { s₂ with result_status := ResultStatus.NO_HIT_YELLOW } r hq2
      have htail : run_tail ops col cfg [qi]
          (OgcApiAnalysis._set_distance_to_object ops col cfg) ig iqm
          { s₂ with result_status := ResultStatus.NO_HIT_YELLOW }
          = .error ⟨"_add_run_algorithm"⟩ := by
        unfold run_tail
        rw [if_pos (Or.inr rfl), hsd]
      unfold Analysis.run
      dsimp only
      rw [hrca]
      dsimp only
      rw [if_neg hcond, htail]

/-- A collaborator environment whose coverage source returns only
"ikkeRelevant" and whose query capability reports one polygonal feature with
status 200. -/
def c1Col : Collaborators SimpleGeom :=
  { baseCol with
    get_values_from_wfs := (["ikkeRelevant"], ⟨100, "100.0"⟩)
    query_ogc_api := fun _ _ =>
      (200, some ⟨[⟨[], some ⟨7, GeomType.wkbPolygon⟩⟩]⟩) }

/-- The same environment with the query capability reporting status 408
instead. -/
def c1Col408 : Collaborators SimpleGeom :=
  { c1Col with query_ogc_api := fun _ _ => (408, none) }

/-- C1, counterexample: with the coverage source returning only
"ikkeRelevant", the coverage evaluator judges coverage adequate (only
"ikkeKartlagt" is coverage-denying), so the dataset query stage IS invoked —
the run's outcome tracks the query capability's status code: a 200 response
drives the run into the query stage's faulting step-label call
(`ogc_api_analysis.py:35`) and the run raises `AttributeError`, while a 408
answer completes the run with TIMEOUT.  In neither case does the run produce
NO_HIT_YELLOW with the query skipped, so the claim as stated is false on the
code. -/
theorem C1_counterexample :
    ((get_coverage_quality c1Col demoCov).2.2 = true) ∧
    (Analysis.run simpleOps c1Col demoCfg [demoCov]
        (OgcApiAnalysis._run_queries c1Col demoCfg)
        (OgcApiAnalysis._set_distance_to_object simpleOps c1Col demoCfg)
        true true demoState
      = .error (RunException.attributeError ⟨"_add_run_algorithm"⟩)) ∧
    ((Analysis.run simpleOps c1Col408 demoCfg [demoCov]
        (OgcApiAnalysis._run_queries c1Col408 demoCfg)
        (OgcApiAnalysis._set_distance_to_object simpleOps c1Col408 demoCfg)
        true true demoState).map (fun t => t.result_status)
      = Except.ok ResultStatus.TIMEOUT) := by
  exact ⟨by rfl, by rfl, by rfl⟩

/-- A collaborator environment whose coverage source returns only
"ikkeKartlagt" and whose query capability yields no response. -/
def c1wCol : Collaborators SimpleGeom :=
  { baseCol with get_values_from_wfs := (["ikkeKartlagt"], ⟨0, "0.0"⟩) }

/-- Witness for the amended C1: with the coverage source returning only
"ikkeKartlagt" and no distance-query response, the run completes
NO_HIT_YELLOW with `hitArea` unset. -/
theorem C1_amended_no_coverage_witness :
    ((Analysis.run simpleOps c1wCol demoCfg [demoCov] (fun t => .ok t)
        (OgcApiAnalysis._set_distance_to_object simpleOps c1wCol demoCfg)
        true true demoState).map (fun t => (t.result_status, t.hit_area)))
      = Except.ok (ResultStatus.NO_HIT_YELLOW, (none : Option ℚ)) := by
  obtain ⟨s', hrun, h1, h2⟩ :=
    ((C1_amended_no_coverage simpleOps c1wCol demoCfg demoCov ⟨0, "0.0"⟩ true true
      demoState rfl rfl rfl rfl).2 (fun t => .ok t)).1 rfl
  rw [hrun]
  simp only [Except.map]
  rw [h1, h2]
